import Mathlib

/-
  Verification development for the repo-fetch front-end.

  The embedding follows the source file App.tsx of the repository:
  the asynchronous function fetchRepositories, the Repo and RepoList
  components, the App submit handler, and the highlightElement and
  blurElement focus helpers.  JavaScript runtime values are modelled by
  an inductive JSValue; a function call either returns a value or throws
  one (JsOutcome); the network is a map from the requested URL to an
  HTTP outcome.
-/

namespace RepoFetch

/-- A JavaScript runtime value, as needed by the program: undefined, null,
booleans, numbers, strings, arrays, plain objects (association lists of
string keys to values), and Error objects carrying a message. -/
inductive JSValue where
  | jundefined
  | jnull
  | jbool (b : Bool)
  | jnum (n : Int)
  | jstr (s : String)
  | jarr (elems : List JSValue)
  | jobj (fields : List (String × JSValue))
  | jerr (message : String)

/-- The outcome of running a JavaScript function body: a normal return of a
value, or an exception thrown past it. -/
inductive JsOutcome where
  | ret (v : JSValue)
  | thrown (v : JSValue)

/-- What the network does with one outgoing request: the connection itself
fails (the fetch promise rejects with an error message), or an HTTP
response arrives with a status code and a body.  The body is recorded as
what response.json() yields on it: a parse error message, or the parsed
JSON value. -/
inductive HttpOutcome where
  | networkError (message : String)
  | response (status : Nat) (body : Except String JSValue)

/-- A network environment: the HTTP outcome produced for each requested
URL. -/
def Net : Type := String → HttpOutcome

/-- The request URL built at source line 23:
fetch with the template api.github.com/users/ followed by the username and
/repos.  Note the source template has no scheme. -/
def fetchUrl (username : String) : String :=
  "api.github.com/users/" ++ username ++ "/repos"

/-- Response.ok of the Fetch standard: status in the inclusive range 200
to 299. -/
def respOk (status : Nat) : Bool :=
  decide (200 ≤ status ∧ status ≤ 299)

/-- The try block of fetchRepositories (source lines 13 to 28): await the
fetch (a rejected promise is a thrown error), throw on a not-ok status
with the message built from the status code, parse the body (a parse
failure is a thrown error), and return the parsed data. -/
def fetchTry (username : String) (net : Net) : Except JSValue JSValue :=
  match net (fetchUrl username) with
  | .networkError msg => .error (.jerr msg)
  | .response status body =>
    if respOk status then
      match body with
      | .error msg => .error (.jerr msg)
      | .ok data => .ok data
    else
      .error (.jerr ("HTTP error! Status code: " ++ toString status))

/-- The whole of fetchRepositories (source lines 10 to 33): run the try
block; the catch clause turns any thrown error into a normal return of
that same error value. -/
def fetchRepositoriesRun (username : String) (net : Net) : JsOutcome :=
  match fetchTry username net with
  | .ok data => .ret data
  | .error e => .ret e

/-- The promise object that a call of fetchRepositories evaluates to, as a
JavaScript object: it records the outcome it settles with.  A promise
keeps its result in internal slots, not in properties. -/
structure JSPromise where
  settles : JsOutcome

/-- The enumerable own and inherited string-keyed properties of a Promise
object, the range of a for...in loop over it: a Promise instance has no
enumerable properties (its state lives in internal slots and the
prototype methods are non-enumerable), so the list is empty for every
promise. -/
def JSPromise.forInKeys (_ : JSPromise) : List String :=
  []

/-- One rendered list entry, as produced by the Repo component (source
lines 36 to 44): an li of the given class holding an anchor whose href is
the link and whose text is the name. -/
structure RepoEntry where
  name : JSValue
  link : JSValue
  styles : String

/-- Property access on a primitive string value with the keys used in the
loop body: a string has no own property called name or link, so the
access yields undefined. -/
def stringProp (_ : String) (_ : String) : JSValue :=
  .jundefined

/-- The listItems array built by RepoList (source lines 57 to 61): the
for...in loop ranges over the keys of the promise object held in the
repositories constant, pushing one Repo element per key; the loop
variable repo is the key string, so repo indexed at name and link is
undefined. -/
def repoListItems (repositories : JSPromise) : List RepoEntry :=
  repositories.forInKeys.map
    (fun repo => { name := stringProp repo "name"
                   link := stringProp repo "link"
                   styles := "" })

/-- What RepoList (source lines 47 to 68) displays for a given user state
and network: it calls fetchRepositories with the user value, binds the
resulting promise to the repositories constant, and renders the ul of
listItems built from it. -/
def repoListRender (user : String) (net : Net) : List RepoEntry :=
  repoListItems ⟨fetchRepositoriesRun user net⟩

/-- The two interactive controls of the App component: the username text
input and the submit input. -/
inductive Control where
  | userField
  | submitControl
deriving DecidableEq

/-- The presentation state of one input element: its inline border and
border-left styles. -/
structure ElemState where
  border : String
  borderLeft : String

/-- Assignment to style.border: the CSS border shorthand, which also
resets the border-left longhand to the same value. -/
def ElemState.setBorder (_ : ElemState) (v : String) : ElemState :=
  { border := v, borderLeft := v }

/-- Assignment to style.borderLeft: only the longhand changes. -/
def ElemState.setBorderLeft (e : ElemState) (v : String) : ElemState :=
  { e with borderLeft := v }

/-- The state the App component closes over: the user value of the
useState hook, the current FetchResult data (the settled outcome of the
last fetch, if any), the two ref targets (null until mounted), and which
control holds input focus. -/
structure UIState where
  user : String
  fetchResult : Option JsOutcome
  userInputEl : Option ElemState
  submitEl : Option ElemState
  focused : Option Control

/-- Dereference a ref: current is the element of the chosen control, or
null. -/
def getEl (s : UIState) : Control → Option ElemState
  | .userField => s.userInputEl
  | .submitControl => s.submitEl

/-- Write back the mutated element of the chosen control. -/
def setEl (s : UIState) (c : Control) (e : ElemState) : UIState :=
  match c with
  | .userField => { s with userInputEl := some e }
  | .submitControl => { s with submitEl := some e }

/-- highlightElement (source lines 91 to 107): if ref.current exists, set
its border to 2px solid white and its border-left to 2px solid #151b23;
then, if self.current exists, call focus() on it, moving input focus to
that control. -/
def highlightElement (ref self : Control) (s : UIState) : UIState :=
  let s1 :=
    match getEl s ref with
    | some el => setEl s ref ((el.setBorder "2px solid white").setBorderLeft "2px solid #151b23")
    | none => s
  match getEl s1 self with
  | some _ => { s1 with focused := some self }
  | none => s1

/-- blurElement (source lines 110 to 121): if ref.current exists, set its
border to none; then, if self.current exists, call blur() on it, which
removes input focus from it when it holds it. -/
def blurElement (ref self : Control) (s : UIState) : UIState :=
  let s1 :=
    match getEl s ref with
    | some el => setEl s ref (el.setBorder "none")
    | none => s
  match getEl s1 self with
  | some _ => { s1 with focused := if s1.focused = some self then none else s1.focused }
  | none => s1

/-- The onSubmit handler of the form (source line 137): prevent the
default submission, then call fetchRepositories with the current user
value.  The returned promise is not awaited, stored or rendered; the
component state is unchanged. -/
def onSubmitHandler (s : UIState) (net : Net) : UIState × JSPromise :=
  (s, ⟨fetchRepositoriesRun s.user net⟩)

/-- A repository record of the shape the spec scenario uses: name
Hello-World with its GitHub URL. -/
def octoRecord : JSValue :=
  .jobj [("name", .jstr "Hello-World"),
         ("url", .jstr "https://github.com/octocat/Hello-World")]

/-- A network on which every request succeeds with status 200 and a body
that parses to the one-element array holding octoRecord. -/
def netOcto : Net :=
  fun _ => .response 200 (.ok (.jarr [octoRecord]))

/-- Two records, the first lacking the url field, the second complete. -/
def recordsMissingField : List JSValue :=
  [.jobj [("name", .jstr "alpha")],
   .jobj [("name", .jstr "beta"), ("url", .jstr "https://example.com/beta")]]

/-- A network answering status 200 with the two-record array, one record
incomplete. -/
def netMissingField : Net :=
  fun _ => .response 200 (.ok (.jarr recordsMissingField))

/-- A network on which every request fails with a 404 response whose body
is the GitHub not-found JSON object. -/
def net404 : Net :=
  fun _ => .response 404 (.ok (.jobj [("message", .jstr "Not Found")]))

/-- A network on which the connection itself fails. -/
def netDown : Net :=
  fun _ => .networkError "TypeError: Failed to fetch"

/-- A UI state with user octocat, both elements mounted with no border,
and no control focused. -/
def uiOcto : UIState :=
  { user := "octocat"
    fetchResult := none
    userInputEl := some { border := "none", borderLeft := "none" }
    submitEl := some { border := "none", borderLeft := "none" }
    focused := none }

/-- C1: the claim says rendering the fetch result for a username yields one
entry per element of a well-formed JSON array response, in order.  The code
violates it: on the scenario input (user octocat, status 200, a one-element
array) fetchRepositories does produce the one-element array, yet RepoList
renders the empty list, not one entry. -/
theorem render_octocat_scenario_empty :
    fetchRepositoriesRun "octocat" netOcto = .ret (.jarr [octoRecord]) ∧
    repoListRender "octocat" netOcto = [] ∧
    [octoRecord].length = 1 := by
  exact ⟨rfl, rfl, rfl⟩

/-- C2: the claim says the result of the submission-triggered fetch is what
gets rendered.  The code violates it: the onSubmit handler invokes the
fetcher with the current user value and its promise settles with the
one-record array, but the handler discards it, leaves the state unchanged,
and the displayed list is empty rather than a rendering of that result. -/
theorem submit_result_not_rendered :
    ((onSubmitHandler uiOcto netOcto).2.settles = .ret (.jarr [octoRecord])) ∧
    ((onSubmitHandler uiOcto netOcto).1 = uiOcto) ∧
    repoListRender uiOcto.user netOcto = [] := by
  exact ⟨rfl, rfl, rfl⟩

/-- C3: for every username and every network outcome, fetchRepositories
returns normally: the catch clause turns every thrown error into a
returned value, so no exception propagates past its boundary. -/
theorem fetch_never_throws (username : String) (net : Net) :
    ∃ v, fetchRepositoriesRun username net = JsOutcome.ret v := by
  unfold fetchRepositoriesRun
  cases fetchTry username net with
  | ok data => exact ⟨data, rfl⟩
  | error e => exact ⟨e, rfl⟩

/-- C4: on a response with HTTP status 404, fetchRepositories returns the
error value whose message contains 404, and RepoList renders the empty
list of entries for it. -/
theorem fetch_404_contains_404 (username : String) (net : Net)
    (body : Except String JSValue)
    (h : net (fetchUrl username) = .response 404 body) :
    fetchRepositoriesRun username net = .ret (.jerr ("HTTP error! Status code: 404")) ∧
    (∃ pre post, "HTTP error! Status code: 404" = pre ++ "404" ++ post) ∧
    repoListRender username net = [] := by
  refine ⟨?_, ⟨"HTTP error! Status code: ", "", rfl⟩, rfl⟩
  unfold fetchRepositoriesRun fetchTry
  rw [h]
  rfl

/-- C4 witness: the 404 theorem applied at the concrete username octocat
and the concrete 404 network. -/
theorem fetch_404_contains_404_witness :
    fetchRepositoriesRun "octocat" net404 = .ret (.jerr ("HTTP error! Status code: 404")) ∧
    (∃ pre post, "HTTP error! Status code: 404" = pre ++ "404" ++ post) ∧
    repoListRender "octocat" net404 = [] :=
  fetch_404_contains_404 "octocat" net404
    (.ok (.jobj [("message", .jstr "Not Found")])) rfl

/-- C5: the claim says the request URL is the fixed https template with an
absolute api host.  The code violates it: the template of source line 23
is api.github.com/users/.../repos with no scheme at all, a relative URL. -/
theorem fetchUrl_lacks_https_scheme :
    fetchUrl "octocat" = "api.github.com/users/octocat/repos" ∧
    ("https://".data.isPrefixOf (fetchUrl "octocat").data) = false := by
  exact ⟨rfl, by decide⟩

/-- C6: the claim says a record missing a field is rendered with that field
blanked while every other record still renders.  The code violates it: on
a success body of two records, one incomplete and one complete, rendering
yields zero entries, so the complete record is not rendered either. -/
theorem render_missing_field_drops_all :
    fetchRepositoriesRun "octocat" netMissingField = .ret (.jarr recordsMissingField) ∧
    recordsMissingField.length = 2 ∧
    repoListRender "octocat" netMissingField = [] := by
  exact ⟨rfl, rfl, rfl⟩

/-- C7: when the username field gains focus, the onFocus handler runs
highlightElement with the submit ref first and the username ref second:
afterwards the submit element carries the focused visual treatment (white
border with the dark left edge) and input focus rests on the username
field. -/
theorem highlight_styles_submit_focuses_user (s : UIState) (el el2 : ElemState)
    (hs : s.submitEl = some el) (hu : s.userInputEl = some el2) :
    (highlightElement .submitControl .userField s).submitEl =
      some { border := "2px solid white", borderLeft := "2px solid #151b23" } ∧
    (highlightElement .submitControl .userField s).focused = some .userField := by
  unfold highlightElement
  simp [getEl, setEl, ElemState.setBorder, ElemState.setBorderLeft, hs, hu]

/-- C7 witness: the highlight theorem applied to the concrete mounted
state uiOcto. -/
theorem highlight_styles_submit_focuses_user_witness :
    (highlightElement .submitControl .userField uiOcto).submitEl =
      some { border := "2px solid white", borderLeft := "2px solid #151b23" } ∧
    (highlightElement .submitControl .userField uiOcto).focused = some .userField :=
  highlight_styles_submit_focuses_user uiOcto
    { border := "none", borderLeft := "none" }
    { border := "none", borderLeft := "none" } rfl rfl

/-- C8: highlightElement and blurElement touch only element styles and
focus; for every pair of refs and every state, the user value and the
FetchResult data are unchanged. -/
theorem highlight_blur_frame (ref self : Control) (s : UIState) :
    (highlightElement ref self s).user = s.user ∧
    (highlightElement ref self s).fetchResult = s.fetchResult ∧
    (blurElement ref self s).user = s.user ∧
    (blurElement ref self s).fetchResult = s.fetchResult := by
  obtain ⟨u, r, ui, se, f⟩ := s
  cases ref <;> cases self <;> cases ui <;> cases se <;>
    exact ⟨rfl, rfl, rfl, rfl⟩

/-- C9: for every user value and every network outcome, RepoList renders
the empty list: the for...in loop ranges over the enumerable properties
of the promise object returned by fetchRepositories, of which there are
none, so no item is ever pushed. -/
theorem repoList_always_empty (user : String) (net : Net) :
    repoListRender user net = [] := by
  rfl

/-- C10: fetchRepositories returns success data and failure errors through
one untagged channel: on a 200 response with a parsed body it returns the
bare parsed value, and on a network failure it returns the bare caught
error value, with no Success or Failure wrapper distinguishing them. -/
theorem fetch_untagged_channel (username : String) (net : Net) :
    (∀ data, net (fetchUrl username) = .response 200 (.ok data) →
      fetchRepositoriesRun username net = .ret data) ∧
    (∀ msg, net (fetchUrl username) = .networkError msg →
      fetchRepositoriesRun username net = .ret (.jerr msg)) := by
  constructor
  · intro data h
    unfold fetchRepositoriesRun fetchTry
    rw [h]
    rfl
  · intro msg h
    unfold fetchRepositoriesRun fetchTry
    rw [h]

/-- C10 witness: the untagged-channel theorem applied on the concrete
success network netOcto and the concrete failing network netDown. -/
theorem fetch_untagged_channel_witness :
    fetchRepositoriesRun "octocat" netOcto = .ret (.jarr [octoRecord]) ∧
    fetchRepositoriesRun "octocat" netDown = .ret (.jerr "TypeError: Failed to fetch") :=
  ⟨(fetch_untagged_channel "octocat" netOcto).1 (.jarr [octoRecord]) rfl,
   (fetch_untagged_channel "octocat" netDown).2 "TypeError: Failed to fetch" rfl⟩

end RepoFetch
